import Mathlib

/-!
Shallow embedding of the mAgent-CRM lead scoring engine
(src/analytics/lead_scoring.py, src/analytics/models.py) and of the
workflow automation engine (src/analytics/task_automation.py).

Machine integers are modelled as Lean Int; Python float arithmetic that
the code only uses on exact small values (rule_score / 100, engagement
rates) is modelled exactly with Int truncated division and Rat.
Database rows are modelled as lists of records and Django queryset
filters as list filters; ordering clauses are modelled with a sort of
the row list.
Timestamps are seconds as Int, so timedelta(minutes=5) is 300 and one
day is 86400.
-/

/-- Python values that may be stored in a customer attribute, as far as
the scoring rules inspect them (str(), truthiness, isinstance str). -/
inductive PyVal where
  | vstr (s : String)
  | vint (n : Int)
  | vbool (b : Bool)
  | vnone
deriving DecidableEq

/-- Python str() of an attribute value. -/
def PyVal.toStr : PyVal → String
  | .vstr s => s
  | .vint n => toString n
  | .vbool b => if b then "True" else "False"
  | .vnone => "None"

/-- Python truthiness of an attribute value. -/
def PyVal.truthy : PyVal → Bool
  | .vstr s => s ≠ ""
  | .vint n => n ≠ 0
  | .vbool b => b
  | .vnone => false

/-- Whether the value is a Python str (isinstance(v, str)). -/
def PyVal.isStr : PyVal → Bool
  | .vstr _ => true
  | _ => false

/-- The underlying string of a str value (only inspected when isStr). -/
def PyVal.strVal : PyVal → String
  | .vstr s => s
  | _ => ""

/-- Python substring test needle in hay, via splitOn. -/
def strContains (hay needle : String) : Bool :=
  if needle = "" then true else (hay.splitOn needle).length ≥ 2

/-- customers.models.Customer, restricted to the fields the scoring
engine reads: pk, created_at, city, suburb, tags, and the attributes
reachable through getattr for customer_attribute rules. -/
structure Customer where
  id : Nat
  created_at : Int
  city : String
  suburb : String
  tags : List String
  attrs : List (String × PyVal)
deriving DecidableEq

/-- analytics.models.AnalyticsEvent (fields read by the engine). -/
structure AnalyticsEventRec where
  customerId : Nat
  event_type : String
  timestamp : Int
deriving DecidableEq

/-- analytics.models.EmailDelivery (fields read by the engine). -/
structure EmailDeliveryRec where
  customerId : Nat
  status : String
  sent_at : Int
deriving DecidableEq

/-- analytics.models.Task (fields read by the engine). -/
structure TaskRec where
  customerId : Nat
  status : String
  priority : String
  completed_at : Option Int
deriving DecidableEq

/-- customers.models.CustomerNote (fields read by the engine). -/
structure CustomerNoteRec where
  customerId : Nat
  note_type : String
  created_at : Int
deriving DecidableEq

/-- The database tables the rule evaluators query. -/
structure Db where
  events : List AnalyticsEventRec
  deliveries : List EmailDeliveryRec
  tasks : List TaskRec
  notes : List CustomerNoteRec
deriving DecidableEq

/-- The condition_config JSON object of a LeadScoringRule, typed with
one optional field per key any evaluator reads; config.get(k, d)
becomes .k.getD d, and JSON list values default to []. -/
structure CondConfig where
  field_name : Option String := none
  expected_value : Option PyVal := none
  condition : Option String := none
  days_back : Option Int := none
  min_interactions : Option Int := none
  max_interactions : Option Int := none
  interaction_types : List String := []
  scale_by_count : Bool := false
  max_scaled_score : Option Int := none
  min_opens : Option Int := none
  min_clicks : Option Int := none
  engagement_rate_threshold : Option Rat := none
  min_completed_tasks : Option Int := none
  task_priorities : List String := []
  min_uploads : Option Int := none
  min_notes : Option Int := none
  note_types : List String := []
  days_threshold : Option Int := none
  cities : List String := []
  suburbs : List String := []
  required_tags : List String := []
  excluded_tags : List String := []
deriving DecidableEq

/-- analytics.models.LeadScoringRule (fields read by the engine). -/
structure LeadScoringRule where
  name : String
  is_active : Bool
  rule_type : String
  condition_config : CondConfig
  score_value : Int
  is_multiplier : Bool
  priority : Int
deriving DecidableEq

/-- LeadScoringEngine._evaluate_customer_attribute_rule. -/
def evaluate_customer_attribute_rule (c : Customer) (config : CondConfig)
    (score_value : Int) : Int :=
  match config.field_name with
  | none => 0
  | some field_name =>
    if field_name = "" then 0
    else
      match c.attrs.lookup field_name with
      | none => 0
      | some actual =>
        let condition := config.condition.getD "equals"
        let expected := config.expected_value.getD PyVal.vnone
        if condition = "equals" then
          if actual.toStr = expected.toStr then score_value else 0
        else if condition = "contains" ∧ actual.isStr ∧ expected.truthy then
          if strContains actual.strVal.toLower expected.toStr.toLower then
            score_value
          else 0
        else if condition = "not_empty" then
          if actual.truthy then score_value else 0
        else if condition = "is_empty" then
          if actual.truthy then 0 else score_value
        else 0

/-- LeadScoringEngine._evaluate_interaction_count_rule. -/
def evaluate_interaction_count_rule (db : Db) (now : Int) (c : Customer)
    (config : CondConfig) (score_value : Int) : Int :=
  let days_back := config.days_back.getD 30
  let min_interactions := config.min_interactions.getD 1
  let since_date := now - days_back * 86400
  let interaction_count : Int :=
    db.events.countP (fun ev =>
      decide (ev.customerId = c.id ∧ since_date ≤ ev.timestamp ∧
        (config.interaction_types = [] ∨ ev.event_type ∈ config.interaction_types)))
  if min_interactions ≤ interaction_count then
    if (match config.max_interactions with
        | none => true
        | some m => decide (interaction_count ≤ m)) then
      if config.scale_by_count then
        min (score_value * interaction_count)
          (config.max_scaled_score.getD (score_value * 10))
      else score_value
    else 0
  else 0

/-- LeadScoringEngine._evaluate_email_engagement_rule. -/
def evaluate_email_engagement_rule (db : Db) (now : Int) (c : Customer)
    (config : CondConfig) (score_value : Int) : Int :=
  let days_back := config.days_back.getD 30
  let min_opens := config.min_opens.getD 0
  let min_clicks := config.min_clicks.getD 0
  let since_date := now - days_back * 86400
  let deliveries := db.deliveries.filter (fun d =>
    decide (d.customerId = c.id ∧ since_date ≤ d.sent_at))
  if deliveries.isEmpty then 0
  else
    let total_emails : Int := deliveries.length
    let opened_emails : Int :=
      deliveries.countP (fun d => d.status = "opened" ∨ d.status = "clicked")
    let clicked_emails : Int := deliveries.countP (fun d => d.status = "clicked")
    let engagement_rate : Rat :=
      if 0 < total_emails then (opened_emails : Rat) / (total_emails : Rat) * 100
      else 0
    let s1 : Int := if min_opens ≤ opened_emails then Int.fdiv score_value 2 else 0
    let s2 : Int := if min_clicks ≤ clicked_emails then Int.fdiv score_value 2 else 0
    let s3 : Int :=
      match config.engagement_rate_threshold with
      | none => 0
      | some thr => if thr ≠ 0 ∧ thr ≤ engagement_rate then score_value else 0
    s1 + s2 + s3

/-- LeadScoringEngine._evaluate_task_completion_rule. -/
def evaluate_task_completion_rule (db : Db) (now : Int) (c : Customer)
    (config : CondConfig) (score_value : Int) : Int :=
  let days_back := config.days_back.getD 30
  let min_completed_tasks := config.min_completed_tasks.getD 1
  let since_date := now - days_back * 86400
  let completed_count : Int :=
    db.tasks.countP (fun t =>
      decide (t.customerId = c.id) && decide (t.status = "completed") &&
        (match t.completed_at with
         | some ct => decide (since_date ≤ ct)
         | none => false) &&
        decide (config.task_priorities = [] ∨ t.priority ∈ config.task_priorities))
  if min_completed_tasks ≤ completed_count then
    if config.scale_by_count then
      min (score_value * completed_count)
        (config.max_scaled_score.getD (score_value * 5))
    else score_value
  else 0

/-- LeadScoringEngine._evaluate_file_uploads_rule. -/
def evaluate_file_uploads_rule (db : Db) (now : Int) (c : Customer)
    (config : CondConfig) (score_value : Int) : Int :=
  let days_back := config.days_back.getD 30
  let min_uploads := config.min_uploads.getD 1
  let since_date := now - days_back * 86400
  let upload_count : Int :=
    db.events.countP (fun ev =>
      decide (ev.customerId = c.id ∧ ev.event_type = "file_uploaded" ∧
        since_date ≤ ev.timestamp))
  if min_uploads ≤ upload_count then score_value else 0

/-- LeadScoringEngine._evaluate_note_frequency_rule. -/
def evaluate_note_frequency_rule (db : Db) (now : Int) (c : Customer)
    (config : CondConfig) (score_value : Int) : Int :=
  let days_back := config.days_back.getD 30
  let min_notes := config.min_notes.getD 1
  let since_date := now - days_back * 86400
  let note_count : Int :=
    db.notes.countP (fun n =>
      decide (n.customerId = c.id ∧ since_date ≤ n.created_at ∧
        (config.note_types = [] ∨ n.note_type ∈ config.note_types)))
  if min_notes ≤ note_count then score_value else 0

/-- LeadScoringEngine._evaluate_time_since_creation_rule. -/
def evaluate_time_since_creation_rule (now : Int) (c : Customer)
    (config : CondConfig) (score_value : Int) : Int :=
  let days_threshold := config.days_threshold.getD 30
  let condition := config.condition.getD "older_than"
  let days_since_creation := Int.fdiv (now - c.created_at) 86400
  if condition = "older_than" ∧ days_threshold ≤ days_since_creation then
    score_value
  else if condition = "newer_than" ∧ days_since_creation ≤ days_threshold then
    score_value
  else 0

/-- LeadScoringEngine._evaluate_geographic_location_rule. -/
def evaluate_geographic_location_rule (c : Customer) (config : CondConfig)
    (score_value : Int) : Int :=
  if config.cities ≠ [] ∧ c.city ≠ "" ∧
      c.city.toLower ∈ config.cities.map String.toLower then
    score_value
  else if config.suburbs ≠ [] ∧ c.suburb ≠ "" ∧
      c.suburb.toLower ∈ config.suburbs.map String.toLower then
    score_value
  else 0

/-- LeadScoringEngine._evaluate_tag_presence_rule. -/
def evaluate_tag_presence_rule (c : Customer) (config : CondConfig)
    (score_value : Int) : Int :=
  let condition := config.condition.getD "any"
  let customer_tags := c.tags.map String.toLower
  let required_ok : Bool :=
    if config.required_tags = [] then true
    else
      let required_lower := config.required_tags.map String.toLower
      if condition = "any" then
        required_lower.any (fun t => t ∈ customer_tags)
      else
        required_lower.all (fun t => t ∈ customer_tags)
  if ¬ required_ok then 0
  else
    let excluded_hit : Bool :=
      if config.excluded_tags = [] then false
      else
        (config.excluded_tags.map String.toLower).any (fun t => t ∈ customer_tags)
  if excluded_hit then 0 else score_value

/-- LeadScoringEngine._evaluate_custom_field_rule: a placeholder that
always returns 0 (the custom field system is not implemented). -/
def evaluate_custom_field_rule (_c : Customer) (_config : CondConfig)
    (_score_value : Int) : Int :=
  0

/-- LeadScoringEngine._evaluate_rule: dispatch on rule_type to one of
the ten evaluators; unknown rule types score 0. -/
def evaluate_rule (db : Db) (now : Int) (c : Customer)
    (rule : LeadScoringRule) : Int :=
  let config := rule.condition_config
  if rule.rule_type = "customer_attribute" then
    evaluate_customer_attribute_rule c config rule.score_value
  else if rule.rule_type = "interaction_count" then
    evaluate_interaction_count_rule db now c config rule.score_value
  else if rule.rule_type = "email_engagement" then
    evaluate_email_engagement_rule db now c config rule.score_value
  else if rule.rule_type = "task_completion" then
    evaluate_task_completion_rule db now c config rule.score_value
  else if rule.rule_type = "file_uploads" then
    evaluate_file_uploads_rule db now c config rule.score_value
  else if rule.rule_type = "note_frequency" then
    evaluate_note_frequency_rule db now c config rule.score_value
  else if rule.rule_type = "time_since_creation" then
    evaluate_time_since_creation_rule now c config rule.score_value
  else if rule.rule_type = "geographic_location" then
    evaluate_geographic_location_rule c config rule.score_value
  else if rule.rule_type = "tag_presence" then
    evaluate_tag_presence_rule c config rule.score_value
  else if rule.rule_type = "custom_field" then
    evaluate_custom_field_rule c config rule.score_value
  else 0

/-- analytics.models.CustomerScore SCORE_TIERS values. -/
inductive Tier where
  | cold
  | warm
  | hot
  | qualified
deriving DecidableEq

/-- CustomerScore.update_score_tier: map the current score to a tier
with the fixed thresholds 25 / 50 / 75. -/
def update_score_tier (current_score : Int) : Tier :=
  if current_score ≤ 25 then Tier.cold
  else if current_score ≤ 50 then Tier.warm
  else if current_score ≤ 75 then Tier.hot
  else Tier.qualified

/-- analytics.models.CustomerScore (fields touched by the engine). -/
structure CustomerScore where
  current_score : Int
  previous_score : Int
  score_change : Int
  score_tier : Tier
  score_breakdown : List (String × Int)
  calculation_count : Int
  last_calculated : Option Int
  last_change_date : Option Int
deriving DecidableEq

/-- The model defaults used by get_or_create(customer, defaults 0). -/
def defaultCustomerScore : CustomerScore :=
  { current_score := 0
    previous_score := 0
    score_change := 0
    score_tier := Tier.cold
    score_breakdown := []
    calculation_count := 0
    last_calculated := none
    last_change_date := none }

/-- analytics.models.ScoreHistory (fields written by the engine; the
change_reason mentions len(rules), kept here as rules_used). -/
structure ScoreHistory where
  old_score : Int
  new_score : Int
  score_change : Int
  old_tier : Tier
  new_tier : Tier
  rules_used : Nat
deriving DecidableEq

/-- analytics.models.LeadScoringConfig score range fields. -/
structure ScoreConfig where
  min_score : Int
  max_score : Int
deriving DecidableEq

/-- The order_by minus-priority, name clause of the active-rule query:
descending priority, ties by ascending name. -/
def rulePrecedes (a b : LeadScoringRule) : Prop :=
  b.priority < a.priority ∨ (a.priority = b.priority ∧ a.name ≤ b.name)

instance : DecidableRel rulePrecedes := fun a b =>
  inferInstanceAs (Decidable (b.priority < a.priority ∨
    (a.priority = b.priority ∧ a.name ≤ b.name)))

instance : IsTrans LeadScoringRule rulePrecedes where
  trans a b c hab hbc := by
    rcases hab with h | ⟨h, hn⟩ <;> rcases hbc with h' | ⟨h', hn'⟩
    · exact Or.inl (by omega)
    · exact Or.inl (by omega)
    · exact Or.inl (by omega)
    · exact Or.inr ⟨h.trans h', hn.trans hn'⟩

instance : IsTotal LeadScoringRule rulePrecedes where
  total a b := by
    rcases lt_trichotomy a.priority b.priority with h | h | h
    · exact Or.inr (Or.inl h)
    · rcases le_total a.name b.name with hn | hn
      · exact Or.inl (Or.inr ⟨h, hn⟩)
      · exact Or.inr (Or.inr ⟨h.symm, hn⟩)
    · exact Or.inl (Or.inl h)

/-- LeadScoringRule.objects.filter(is_active True).order_by(minus
priority, name) from calculate_customer_score. -/
def activeRules (rules : List LeadScoringRule) : List LeadScoringRule :=
  List.insertionSort rulePrecedes (rules.filter (fun r => r.is_active))

/-- One iteration of the scoring loop in calculate_customer_score: the
accumulator is the running total and the score_breakdown entries; rules
whose evaluation is 0 leave both untouched, a multiplier rule replaces
the total with int(total * rule_score / 100) (exact truncated
division), any other rule adds its delta. -/
def applyRuleStep (db : Db) (now : Int) (c : Customer)
    (acc : Int × List (String × Int)) (rule : LeadScoringRule) :
    Int × List (String × Int) :=
  let rule_score := evaluate_rule db now c rule
  if rule_score = 0 then acc
  else
    ((if rule.is_multiplier then Int.tdiv (acc.1 * rule_score) 100
      else acc.1 + rule_score),
     acc.2 ++ [(rule.name, rule_score)])

/-- The recently-calculated guard of calculate_customer_score:
last_calculated is set and now minus it is under 5 minutes. -/
def recently_calculated (now : Int) (last_calculated : Option Int) : Bool :=
  match last_calculated with
  | some t => decide (now - t < 300)
  | none => false

/-- LeadScoringEngine.calculate_customer_score. The Django get_or_create
is modelled by the existing argument: none means the CustomerScore row
was created fresh with the model defaults. Returns the saved
CustomerScore row and the ScoreHistory row, when one is created. -/
def calculate_customer_score (db : Db) (now : Int) (config : ScoreConfig)
    (rules : List LeadScoringRule) (customer : Customer)
    (existing : Option CustomerScore) (force_recalculate : Bool) :
    CustomerScore × Option ScoreHistory :=
  let created := existing.isNone
  let customer_score := existing.getD defaultCustomerScore
  if !force_recalculate && !created &&
      recently_calculated now customer_score.last_calculated then
    (customer_score, none)
  else
    let previous_score := customer_score.current_score
    let previous_tier := customer_score.score_tier
    let active := activeRules rules
    let acc := active.foldl (applyRuleStep db now customer) (0, [])
    let new_score := max config.min_score (min config.max_score acc.1)
    let tier := update_score_tier new_score
    let change := new_score - previous_score
    let updated : CustomerScore :=
      { current_score := new_score
        previous_score := previous_score
        score_change := change
        score_tier := tier
        score_breakdown := acc.2
        calculation_count := customer_score.calculation_count + 1
        last_calculated := some now
        last_change_date :=
          if change ≠ 0 then some now else customer_score.last_change_date }
    let history : Option ScoreHistory :=
      if new_score ≠ previous_score ∨ tier ≠ previous_tier then
        some { old_score := previous_score
               new_score := new_score
               score_change := change
               old_tier := previous_tier
               new_tier := tier
               rules_used := active.length }
      else none
    (updated, history)

/-- analytics.models.WorkflowExecution STATUS_CHOICES. -/
inductive WStatus where
  | pending
  | running
  | completed
  | failed
  | cancelled
deriving DecidableEq

/-- One entry of the execution_log JSON list. -/
structure LogEntry where
  timestamp : Int
  action : String
  message : String
deriving DecidableEq

/-- analytics.models.WorkflowAction (fields read by the engine). -/
structure WorkflowAction where
  action_order : Int
  action_type : String
  delay_days : Int
  delay_hours : Int
  delay_minutes : Int
deriving DecidableEq

/-- analytics.models.WorkflowExecution (fields touched by the engine;
current_action defaults to 1). -/
structure WorkflowExecution where
  status : WStatus
  current_action : Int
  execution_log : List LogEntry
  error_message : String
  completed_at : Option Int
deriving DecidableEq

/-- Running one concrete action has external side effects (tasks,
emails, tags); the environment is modelled as an oracle giving each
action either success or the raised error message. -/
def ActionOracle : Type := WorkflowAction → Except String Unit

/-- The log entry appended on action success. -/
def successEntry (now : Int) (a : WorkflowAction) : LogEntry :=
  { timestamp := now, action := a.action_type,
    message := "Action " ++ a.action_type ++ " completed successfully" }

/-- The log entry appended on action failure. -/
def failureEntry (now : Int) (a : WorkflowAction) (err : String) : LogEntry :=
  { timestamp := now, action := a.action_type,
    message := "Action " ++ a.action_type ++ " failed: " ++ err }

/-- The log entry appended on workflow completion. -/
def completedEntry (now : Int) : LogEntry :=
  { timestamp := now, action := "workflow_completed",
    message := "All workflow actions completed successfully" }

/-- The initial log entry written by start_workflow_execution. -/
def startEntry (now : Int) (workflow_name customer_name : String) : LogEntry :=
  { timestamp := now, action := "workflow_started",
    message := "Workflow " ++ workflow_name ++ " started for " ++ customer_name }

/-- The ordering of WorkflowAction rows by action_order. -/
def actionOrderLe (a b : WorkflowAction) : Prop :=
  a.action_order ≤ b.action_order

instance : DecidableRel actionOrderLe := fun a b =>
  inferInstanceAs (Decidable (a.action_order ≤ b.action_order))

instance : IsTrans WorkflowAction actionOrderLe where
  trans _ _ _ hab hbc := le_trans hab hbc

instance : IsTotal WorkflowAction actionOrderLe where
  total a b := le_total a.action_order b.action_order

/-- The query in _execute_next_action: actions of the workflow with
action_order at least current_action, ordered by action_order. -/
def next_candidates (actions : List WorkflowAction) (e : WorkflowExecution) :
    List WorkflowAction :=
  List.insertionSort actionOrderLe
    (actions.filter (fun a => decide (e.current_action ≤ a.action_order)))

mutual

/-- WorkflowEngine._execute_next_action, with fuel for the recursion
through _execute_action. -/
def execute_next_action (oracle : ActionOracle) (now : Int)
    (actions : List WorkflowAction) (fuel : Nat) (e : WorkflowExecution) :
    WorkflowExecution :=
  match fuel with
  | 0 => e
  | Nat.succ n =>
    if e.status = WStatus.pending ∨ e.status = WStatus.running then
      match next_candidates actions e with
      | [] =>
        { e with
          status := WStatus.completed
          completed_at := some now
          execution_log := e.execution_log ++ [completedEntry now] }
      | a :: _ =>
        execute_action oracle now actions n
          { e with status := WStatus.running, current_action := a.action_order } a
    else e
termination_by 3 * fuel
decreasing_by all_goals omega

/-- WorkflowEngine._execute_action. -/
def execute_action (oracle : ActionOracle) (now : Int)
    (actions : List WorkflowAction) (fuel : Nat) (e : WorkflowExecution)
    (a : WorkflowAction) : WorkflowExecution :=
  match oracle a with
  | Except.ok _ =>
    let e1 := { e with
      execution_log := e.execution_log ++ [successEntry now a] }
    if a.delay_days ≠ 0 ∨ a.delay_hours ≠ 0 ∨ a.delay_minutes ≠ 0 then
      schedule_next_action oracle now actions fuel e1
    else
      execute_next_action oracle now actions fuel
        { e1 with current_action := e1.current_action + 1 }
  | Except.error err =>
    { e with
      status := WStatus.failed
      error_message := err
      execution_log := e.execution_log ++ [failureEntry now a err] }
termination_by 3 * fuel + 2
decreasing_by all_goals omega

/-- WorkflowEngine._schedule_next_action: no task queue exists, so it
advances the cursor and continues immediately. -/
def schedule_next_action (oracle : ActionOracle) (now : Int)
    (actions : List WorkflowAction) (fuel : Nat) (e : WorkflowExecution) :
    WorkflowExecution :=
  execute_next_action oracle now actions fuel
    { e with current_action := e.current_action + 1 }
termination_by 3 * fuel + 1
decreasing_by all_goals omega

end

/-- WorkflowEngine.start_workflow_execution: create the execution in
status pending with the started log entry and cursor 1, then run. -/
def start_workflow_execution (oracle : ActionOracle) (now : Int)
    (actions : List WorkflowAction) (fuel : Nat)
    (workflow_name customer_name : String) : WorkflowExecution :=
  let e0 : WorkflowExecution :=
    { status := WStatus.pending
      current_action := 1
      execution_log := [startEntry now workflow_name customer_name]
      error_message := ""
      completed_at := none }
  execute_next_action oracle now actions fuel e0

/-! Concrete example values shared by the closed instances below. -/

def exCustomer : Customer :=
  { id := 0, created_at := 0, city := "", suburb := "", tags := [], attrs := [] }

def exDb : Db := { events := [], deliveries := [], tasks := [], notes := [] }

def exRecentScore : CustomerScore :=
  { defaultCustomerScore with current_score := 7, last_calculated := some 0 }

def exCustomFieldRule : LeadScoringRule :=
  { name := "cf", is_active := true, rule_type := "custom_field",
    condition_config := {}, score_value := 40, is_multiplier := false,
    priority := 0 }

/-- Claim C1: in calculate_customer_score the score accumulates over the
evaluated rules starting from 0; a rule evaluating to a nonzero delta
either rescales the running total to int(total * delta / 100) when
is_multiplier is set, or adds the delta; a zero delta leaves the total
unchanged. -/
theorem score_accumulation (db : Db) (now : Int) (c : Customer)
    (l : List LeadScoringRule) (r : LeadScoringRule) :
    (List.foldl (applyRuleStep db now c) ((0 : Int), ([] : List (String × Int)))
        []).1 = 0 ∧
    ((l ++ [r]).foldl (applyRuleStep db now c) (0, [])).1 =
      (if evaluate_rule db now c r = 0 then
        (l.foldl (applyRuleStep db now c) (0, [])).1
       else if r.is_multiplier then
        Int.tdiv ((l.foldl (applyRuleStep db now c) (0, [])).1 *
          evaluate_rule db now c r) 100
       else
        (l.foldl (applyRuleStep db now c) (0, [])).1 +
          evaluate_rule db now c r) := by
  refine ⟨rfl, ?_⟩
  rw [List.foldl_append]
  by_cases h0 : evaluate_rule db now c r = 0
  · simp [applyRuleStep, h0]
  · by_cases hm : r.is_multiplier
    · simp [applyRuleStep, h0, hm]
    · simp [applyRuleStep, h0, hm]

/-- Claim C3: update_score_tier maps every integer score to exactly one
of the four ordered tiers with the fixed thresholds: cold iff score is
at most 25, warm iff 26..50, hot iff 51..75, qualified iff above 75. -/
theorem update_score_tier_thresholds (s : Int) :
    (update_score_tier s = Tier.cold ↔ s ≤ 25) ∧
    (update_score_tier s = Tier.warm ↔ 26 ≤ s ∧ s ≤ 50) ∧
    (update_score_tier s = Tier.hot ↔ 51 ≤ s ∧ s ≤ 75) ∧
    (update_score_tier s = Tier.qualified ↔ 75 < s) := by
  unfold update_score_tier
  split_ifs <;> refine ⟨?_, ?_, ?_, ?_⟩ <;> simp_all <;> omega

/-- Claim C9: the evaluator for rule_type custom_field returns 0 for
every customer, condition_config and score_value, the dispatcher
therefore evaluates every custom_field rule to 0, and such a rule
leaves the scoring accumulator untouched. -/
theorem custom_field_rule_scores_zero (db : Db) (now : Int) (c : Customer)
    (config : CondConfig) (score_value : Int) (r : LeadScoringRule)
    (h : r.rule_type = "custom_field") :
    evaluate_custom_field_rule c config score_value = 0 ∧
    evaluate_rule db now c r = 0 ∧
    ∀ acc : Int × List (String × Int), applyRuleStep db now c acc r = acc := by
  have hr : evaluate_rule db now c r = 0 := by
    simp [evaluate_rule, h, evaluate_custom_field_rule]
  exact ⟨rfl, hr, fun acc => by simp [applyRuleStep, hr]⟩

/-- Witness for C9 at a concrete custom_field rule. -/
theorem custom_field_rule_scores_zero_witness :
    evaluate_rule exDb 0 exCustomer exCustomFieldRule = 0 :=
  (custom_field_rule_scores_zero exDb 0 exCustomer {} 40 exCustomFieldRule
    rfl).2.1

/-- Claim C10: with force_recalculate false and an existing CustomerScore
whose last_calculated is under 5 minutes old, calculate_customer_score
returns the existing record unchanged, creates no history row, and its
result does not depend on the rule set. -/
theorem recent_score_skip (db : Db) (now : Int) (config : ScoreConfig)
    (rules : List LeadScoringRule) (c : Customer) (cs : CustomerScore)
    (t : Int) (hlast : cs.last_calculated = some t)
    (hrecent : now - t < 300) :
    calculate_customer_score db now config rules c (some cs) false =
      (cs, none) := by
  simp [calculate_customer_score, recently_calculated, hlast, hrecent]

/-- Witness for C10 at a concrete recently-calculated record. -/
theorem recent_score_skip_witness :
    calculate_customer_score exDb 100 ⟨0, 100⟩ [] exCustomer
      (some exRecentScore) false = (exRecentScore, none) :=
  recent_score_skip exDb 100 ⟨0, 100⟩ [] exCustomer exRecentScore 0 rfl
    (by decide)

/-- Counterexample to C2 as stated: nothing constrains the configured
range, and with min_score 50, max_score 10 the stored score is 50,
which is not at most max_score. -/
theorem score_clamp_range_counterexample :
    (calculate_customer_score exDb 0 ⟨50, 10⟩ [] exCustomer none
        true).1.current_score = 50 ∧
    ¬ ((calculate_customer_score exDb 0 ⟨50, 10⟩ [] exCustomer none
        true).1.current_score ≤ (10 : Int)) := by
  decide

/-- Claim C2, amended: the stored score always equals
max(min_score, min(max_score, total)), and whenever the configuration
satisfies min_score at most max_score the stored score lies in the
configured range. -/
theorem score_clamp_range (db : Db) (now : Int) (config : ScoreConfig)
    (rules : List LeadScoringRule) (c : Customer)
    (existing : Option CustomerScore) :
    (calculate_customer_score db now config rules c existing
        true).1.current_score =
      max config.min_score (min config.max_score
        ((activeRules rules).foldl (applyRuleStep db now c) (0, [])).1) ∧
    (config.min_score ≤ config.max_score →
      config.min_score ≤
        (calculate_customer_score db now config rules c existing
          true).1.current_score ∧
      (calculate_customer_score db now config rules c existing
          true).1.current_score ≤ config.max_score) := by
  have hmain :
      (calculate_customer_score db now config rules c existing
          true).1.current_score =
        max config.min_score (min config.max_score
          ((activeRules rules).foldl (applyRuleStep db now c) (0, [])).1) := by
    simp [calculate_customer_score]
  refine ⟨hmain, fun hle => ?_⟩
  rw [hmain]
  constructor
  · exact le_max_left _ _
  · exact max_le hle (min_le_left _ _)

/-- Witness for C2 amended at the default configured range 0..100. -/
theorem score_clamp_range_witness :
    (0 : Int) ≤ (calculate_customer_score exDb 0 ⟨0, 100⟩ [] exCustomer none
        true).1.current_score ∧
    (calculate_customer_score exDb 0 ⟨0, 100⟩ [] exCustomer none
        true).1.current_score ≤ 100 :=
  (score_clamp_range exDb 0 ⟨0, 100⟩ [] exCustomer none).2 (by decide)

/-- Claim C4: calculate_customer_score creates a ScoreHistory row
exactly when the stored score differs from the previous score or the
stored tier differs from the previous tier. -/
theorem history_row_iff_change (db : Db) (now : Int) (config : ScoreConfig)
    (rules : List LeadScoringRule) (c : Customer) (cs : CustomerScore)
    (force_recalculate : Bool) :
    (calculate_customer_score db now config rules c (some cs)
        force_recalculate).2.isSome ↔
      ((calculate_customer_score db now config rules c (some cs)
          force_recalculate).1.current_score ≠ cs.current_score ∨
       (calculate_customer_score db now config rules c (some cs)
          force_recalculate).1.score_tier ≠ cs.score_tier) := by
  simp only [calculate_customer_score]
  by_cases hskip :
      (!force_recalculate && !(Option.isNone (some cs)) &&
        recently_calculated now
          ((some cs).getD defaultCustomerScore).last_calculated) = true
  · rw [if_pos hskip]
    simp
  · rw [if_neg hskip]
    dsimp only [Option.getD_some]
    split
    · rename_i hchange
      simp only [Option.isSome_some, true_iff]
      exact hchange
    · rename_i hsame
      simp only [Option.isSome_none, Bool.false_eq_true, false_iff]
      exact hsame

/-- Claim C5: the rules evaluated by calculate_customer_score are
exactly the active ones, ordered by descending priority with ties
broken by ascending name; inactive rules are never in the evaluated
list. -/
theorem active_rules_order (rules : List LeadScoringRule) :
    (∀ r : LeadScoringRule,
      r ∈ activeRules rules ↔ r ∈ rules ∧ r.is_active = true) ∧
    List.Pairwise (fun a b : LeadScoringRule =>
      b.priority < a.priority ∨ (a.priority = b.priority ∧ a.name ≤ b.name))
      (activeRules rules) := by
  constructor
  · intro r
    unfold activeRules
    rw [List.mem_insertionSort, List.mem_filter]
  · exact List.sorted_insertionSort rulePrecedes _

/-- Witness for C5 at a one-rule list. -/
theorem active_rules_order_witness :
    exCustomFieldRule ∈ activeRules [exCustomFieldRule] :=
  ((active_rules_order [exCustomFieldRule]).1 exCustomFieldRule).mpr
    ⟨by simp, rfl⟩

/-- Witness for C4 at a record whose score changes from 7 to 0. -/
theorem history_row_iff_change_witness :
    (calculate_customer_score exDb 0 ⟨0, 100⟩ [] exCustomer
      (some exRecentScore) true).2.isSome :=
  (history_row_iff_change exDb 0 ⟨0, 100⟩ [] exCustomer exRecentScore
    true).mpr (by decide)

/-- Witness for C3 at score 10, which is tier cold. -/
theorem update_score_tier_thresholds_witness :
    update_score_tier 10 = Tier.cold :=
  (update_score_tier_thresholds 10).1.mpr (by decide)

/-- The head of the candidate query is a pending action of minimal
action_order among those at or past the cursor. -/
lemma next_candidates_head (actions : List WorkflowAction)
    (e : WorkflowExecution) (a : WorkflowAction) (rest : List WorkflowAction)
    (h : next_candidates actions e = a :: rest) :
    e.current_action ≤ a.action_order ∧ a ∈ actions ∧
      ∀ b ∈ actions, e.current_action ≤ b.action_order →
        a.action_order ≤ b.action_order := by
  have hmem : a ∈ next_candidates actions e := by
    rw [h]; exact List.mem_cons_self a rest
  rw [next_candidates, List.mem_insertionSort, List.mem_filter] at hmem
  obtain ⟨ha, hcond⟩ := hmem
  refine ⟨of_decide_eq_true hcond, ha, ?_⟩
  intro b hb hbge
  have hbmem : b ∈ next_candidates actions e := by
    rw [next_candidates, List.mem_insertionSort, List.mem_filter]
    exact ⟨hb, decide_eq_true hbge⟩
  rw [h] at hbmem
  rcases List.mem_cons.mp hbmem with heq | hbrest
  · rw [heq]
  · have hsorted : List.Sorted actionOrderLe (next_candidates actions e) :=
      List.sorted_insertionSort actionOrderLe _
    rw [h] at hsorted
    exact List.rel_of_sorted_cons hsorted b hbrest

/-- _execute_action in closed form: on success it appends the success
entry, advances the cursor by one (with or without a delay), and
continues; on failure it marks the execution failed, records the error
and appends the failure entry. -/
lemma execute_action_eq (oracle : ActionOracle) (now : Int)
    (actions : List WorkflowAction) (fuel : Nat) (e : WorkflowExecution)
    (a : WorkflowAction) :
    execute_action oracle now actions fuel e a =
      match oracle a with
      | Except.ok _ =>
        execute_next_action oracle now actions fuel
          { e with execution_log := e.execution_log ++ [successEntry now a],
                   current_action := e.current_action + 1 }
      | Except.error err =>
        { e with status := WStatus.failed, error_message := err,
                 execution_log := e.execution_log ++ [failureEntry now a err] } := by
  cases hor : oracle a with
  | ok u =>
    rw [execute_action]
    rw [hor]
    dsimp only
    split
    · rw [schedule_next_action]
    · rfl
  | error err =>
    rw [execute_action]
    rw [hor]

/-- Unfolding _execute_next_action at fuel 0. -/
lemma execute_next_action_zero (oracle : ActionOracle) (now : Int)
    (actions : List WorkflowAction) (e : WorkflowExecution) :
    execute_next_action oracle now actions 0 e = e := by
  rw [execute_next_action]

/-- Unfolding _execute_next_action at positive fuel. -/
lemma execute_next_action_succ (oracle : ActionOracle) (now : Int)
    (actions : List WorkflowAction) (n : Nat) (e : WorkflowExecution) :
    execute_next_action oracle now actions (n + 1) e =
      if e.status = WStatus.pending ∨ e.status = WStatus.running then
        match next_candidates actions e with
        | [] =>
          { e with status := WStatus.completed, completed_at := some now,
                   execution_log := e.execution_log ++ [completedEntry now] }
        | a :: _ =>
          execute_action oracle now actions n
            { e with status := WStatus.running,
                     current_action := a.action_order } a
      else e := by
  rw [execute_next_action]

/-- Every engine step appends to the execution log and never moves the
cursor backwards. -/
lemma engine_invariants (oracle : ActionOracle) (now : Int)
    (actions : List WorkflowAction) :
    ∀ fuel : Nat,
      (∀ e : WorkflowExecution,
        (∃ t, (execute_next_action oracle now actions fuel e).execution_log =
          e.execution_log ++ t) ∧
        e.current_action ≤
          (execute_next_action oracle now actions fuel e).current_action) ∧
      (∀ (e : WorkflowExecution) (a : WorkflowAction),
        (∃ t, (execute_action oracle now actions fuel e a).execution_log =
          e.execution_log ++ t) ∧
        e.current_action ≤
          (execute_action oracle now actions fuel e a).current_action) := by
  intro fuel
  induction fuel with
  | zero =>
    constructor
    · intro e
      rw [execute_next_action_zero]
      exact ⟨⟨[], (List.append_nil _).symm⟩, le_refl _⟩
    · intro e a
      rw [execute_action_eq]
      cases hor : oracle a with
      | ok u =>
        dsimp only
        rw [execute_next_action_zero]
        refine ⟨⟨[successEntry now a], rfl⟩, ?_⟩
        dsimp only
        omega
      | error err =>
        dsimp only
        exact ⟨⟨[failureEntry now a err], rfl⟩, le_refl _⟩
  | succ n ih =>
    obtain ⟨ihnext, ihact⟩ := ih
    have hnext : ∀ e : WorkflowExecution,
        (∃ t, (execute_next_action oracle now actions (n + 1) e).execution_log =
          e.execution_log ++ t) ∧
        e.current_action ≤
          (execute_next_action oracle now actions (n + 1) e).current_action := by
      intro e
      rw [execute_next_action_succ]
      by_cases hst : e.status = WStatus.pending ∨ e.status = WStatus.running
      · rw [if_pos hst]
        cases hc : next_candidates actions e with
        | nil =>
          dsimp only
          exact ⟨⟨[completedEntry now], rfl⟩, le_refl _⟩
        | cons a rest =>
          dsimp only
          obtain ⟨⟨t, hlog⟩, hcur⟩ :=
            ihact { e with status := WStatus.running,
                           current_action := a.action_order } a
          have hhead := next_candidates_head actions e a rest hc
          exact ⟨⟨t, hlog⟩, le_trans hhead.1 hcur⟩
      · rw [if_neg hst]
        exact ⟨⟨[], (List.append_nil _).symm⟩, le_refl _⟩
    have hact : ∀ (e : WorkflowExecution) (a : WorkflowAction),
        (∃ t, (execute_action oracle now actions (n + 1) e a).execution_log =
          e.execution_log ++ t) ∧
        e.current_action ≤
          (execute_action oracle now actions (n + 1) e a).current_action := by
      intro e a
      rw [execute_action_eq]
      cases hor : oracle a with
      | ok u =>
        dsimp only
        obtain ⟨⟨t, hlog⟩, hcur⟩ :=
          hnext { e with execution_log := e.execution_log ++ [successEntry now a],
                         current_action := e.current_action + 1 }
        refine ⟨⟨[successEntry now a] ++ t,
          hlog.trans (List.append_assoc _ _ _)⟩, ?_⟩
        have hstep : e.current_action ≤ e.current_action + 1 := by omega
        exact le_trans hstep hcur
      | error err =>
        dsimp only
        exact ⟨⟨[failureEntry now a err], rfl⟩, le_refl _⟩
    exact ⟨hnext, hact⟩

/-! Concrete workflow example values for the closed instances below. -/

def exFailOracle : ActionOracle := fun _ => Except.error "boom"

def exAction : WorkflowAction :=
  { action_order := 1, action_type := "wait", delay_days := 0,
    delay_hours := 0, delay_minutes := 0 }

def exCompletedExec : WorkflowExecution :=
  { status := WStatus.completed, current_action := 1, execution_log := [],
    error_message := "", completed_at := none }

def exPendingExec : WorkflowExecution :=
  { status := WStatus.pending, current_action := 1, execution_log := [],
    error_message := "", completed_at := none }

/-- Claim C6: _execute_next_action is a no-op on an execution whose
status is neither pending nor running, and an action failure marks the
execution failed, records the error, and halts it permanently: any
later engine step leaves the failed execution unchanged. -/
theorem workflow_terminal_halts (oracle : ActionOracle) (now : Int)
    (actions : List WorkflowAction) (fuel : Nat) (e : WorkflowExecution) :
    (e.status ≠ WStatus.pending ∧ e.status ≠ WStatus.running →
      execute_next_action oracle now actions fuel e = e) ∧
    (∀ (a : WorkflowAction) (err : String), oracle a = Except.error err →
      (execute_action oracle now actions fuel e a).status = WStatus.failed ∧
      (execute_action oracle now actions fuel e a).error_message = err ∧
      ∀ fuel2 : Nat,
        execute_next_action oracle now actions fuel2
          (execute_action oracle now actions fuel e a) =
        execute_action oracle now actions fuel e a) := by
  have hterm : ∀ (f : Nat) (x : WorkflowExecution),
      x.status ≠ WStatus.pending → x.status ≠ WStatus.running →
      execute_next_action oracle now actions f x = x := by
    intro f x h1 h2
    cases f with
    | zero => exact execute_next_action_zero oracle now actions x
    | succ n =>
      rw [execute_next_action_succ, if_neg]
      rintro (h | h)
      · exact h1 h
      · exact h2 h
  refine ⟨fun h => hterm fuel e h.1 h.2, ?_⟩
  intro a err herr
  have hfail : execute_action oracle now actions fuel e a =
      { e with status := WStatus.failed, error_message := err,
               execution_log := e.execution_log ++ [failureEntry now a err] } := by
    rw [execute_action_eq, herr]
  refine ⟨by rw [hfail], by rw [hfail], ?_⟩
  intro fuel2
  apply hterm
  · rw [hfail]
    simp
  · rw [hfail]
    simp

/-- Witness for C6: a completed execution is untouched, and an action
failure under an always-failing oracle marks the execution failed. -/
theorem workflow_terminal_halts_witness :
    execute_next_action exFailOracle 0 [] 3 exCompletedExec =
      exCompletedExec ∧
    (execute_action exFailOracle 0 [] 3 exPendingExec exAction).status =
      WStatus.failed :=
  ⟨(workflow_terminal_halts exFailOracle 0 [] 3 exCompletedExec).1
      ⟨by decide, by decide⟩,
   ((workflow_terminal_halts exFailOracle 0 [] 3 exPendingExec).2 exAction
      "boom" rfl).1⟩

/-- Claim C7: workflow execution is a linear ascending traversal of the
action rows: a step on a live execution with no action at or past the
cursor completes the workflow and records completed_at; otherwise the
step runs the action of least action_order at or past the cursor after
setting the cursor to that order; and the cursor never decreases. -/
theorem workflow_linear_traversal (oracle : ActionOracle) (now : Int)
    (actions : List WorkflowAction) (fuel : Nat) (e : WorkflowExecution) :
    ((e.status = WStatus.pending ∨ e.status = WStatus.running) →
      next_candidates actions e = [] →
      (execute_next_action oracle now actions (fuel + 1) e).status =
        WStatus.completed ∧
      (execute_next_action oracle now actions (fuel + 1) e).completed_at =
        some now) ∧
    (∀ (a : WorkflowAction) (rest : List WorkflowAction),
      (e.status = WStatus.pending ∨ e.status = WStatus.running) →
      next_candidates actions e = a :: rest →
      e.current_action ≤ a.action_order ∧ a ∈ actions ∧
      (∀ b ∈ actions, e.current_action ≤ b.action_order →
        a.action_order ≤ b.action_order) ∧
      execute_next_action oracle now actions (fuel + 1) e =
        execute_action oracle now actions fuel
          { e with status := WStatus.running,
                   current_action := a.action_order } a) ∧
    e.current_action ≤
      (execute_next_action oracle now actions fuel e).current_action := by
  refine ⟨?_, ?_, ((engine_invariants oracle now actions fuel).1 e).2⟩
  · intro hst hc
    rw [execute_next_action_succ, if_pos hst, hc]
    exact ⟨rfl, rfl⟩
  · intro a rest hst hc
    have hhead := next_candidates_head actions e a rest hc
    refine ⟨hhead.1, hhead.2.1, hhead.2.2, ?_⟩
    rw [execute_next_action_succ, if_pos hst, hc]

/-- Witness for C7: with no actions a pending execution completes. -/
theorem workflow_linear_traversal_witness :
    (execute_next_action exFailOracle 0 [] 3 exPendingExec).status =
      WStatus.completed :=
  ((workflow_linear_traversal exFailOracle 0 [] 2 exPendingExec).1
    (Or.inl rfl) (by decide)).1

/-- Claim C8: the execution log is append-only: every engine step on an
execution leaves the previous log as a prefix of the new one, and
start_workflow_execution starts the log with the workflow-started
entry. -/
theorem workflow_log_append_only (oracle : ActionOracle) (now : Int)
    (actions : List WorkflowAction) (fuel : Nat) (e : WorkflowExecution)
    (a : WorkflowAction) (workflow_name customer_name : String) :
    (∃ t, (execute_next_action oracle now actions fuel e).execution_log =
      e.execution_log ++ t) ∧
    (∃ t, (execute_action oracle now actions fuel e a).execution_log =
      e.execution_log ++ t) ∧
    (∃ t, (start_workflow_execution oracle now actions fuel workflow_name
        customer_name).execution_log =
      [startEntry now workflow_name customer_name] ++ t) := by
  refine ⟨((engine_invariants oracle now actions fuel).1 e).1,
    ((engine_invariants oracle now actions fuel).2 e a).1, ?_⟩
  have h := ((engine_invariants oracle now actions fuel).1
    { status := WStatus.pending, current_action := 1,
      execution_log := [startEntry now workflow_name customer_name],
      error_message := "", completed_at := none }).1
  simpa [start_workflow_execution] using h
